import Mathlib

/-!
Verification development for the WS2812B inventory-indicator program
(`src/main.py`). The Python program drives a 60-pixel NeoPixel strip:
`set_led_color` writes a named color to a list of addresses and flushes,
`reset_leds` zeroes addresses and flushes, `breathe_effect` runs a
sine-brightness frame loop under a cooperative stop event and then cleans
up, `handle_input` classifies a token as sales-order id or SKU and starts
effect threads tracked in `active_threads`, and
`stop_all_breathing_effects` signals and joins every tracked thread.

The embedding below mirrors those functions over explicit state:
the pixel buffer is a list of RGB triples, a hardware `pixels.show()`
is counted as a flush, printed per-address warnings are collected in a
list, and the stop event of a thread is a monotone boolean read sequence.
-/

namespace WS2812B

/-- An RGB triple as stored in the pixel buffer (Python int channels). -/
abbrev RGB := ℤ × ℤ × ℤ

/-- The NeoPixel buffer: one RGB triple per pixel. -/
abbrev Buffer := List RGB

/-- `LED_COUNT = 60` (main.py line 14). -/
def LED_COUNT : ℕ := 60

/-- `FPS = 30` (main.py line 37). -/
def FPS : ℕ := 30

/-- `BREATH_DURATION = 5` seconds (main.py line 38). -/
def BREATH_DURATION : ℕ := 5

/-- `COLOR_MAP` (main.py lines 27-34). -/
def COLOR_MAP : List (String × RGB) :=
  [("Orange", (255, 165, 0)),
   ("White", (255, 255, 255)),
   ("Blue", (0, 0, 255)),
   ("Green", (0, 255, 0)),
   ("Red", (255, 0, 0)),
   ("Purple", (128, 0, 128))]

/-- Dictionary lookup `COLOR_MAP[name]` / membership test `name in COLOR_MAP`. -/
def lookupColor (name : String) : Option RGB :=
  COLOR_MAP.lookup name

/-- The range check `0 <= addr < LED_COUNT` used before every pixel write. -/
def inRange (addr : ℤ) : Bool :=
  decide (0 ≤ addr ∧ addr < (LED_COUNT : ℤ))

/-- Result of one Device-Surface call: the buffer afterwards, the
out-of-range warnings printed (one list entry per warning), how many
times `pixels.show()` ran, and the color-validation error if any. -/
structure DeviceResult where
  buffer : Buffer
  warnings : List ℤ
  flushes : ℕ
  error : Option String

/-- The write loop of `set_led_color` (main.py lines 68-72): for each
address, write `c` if in range, otherwise print a warning and skip. -/
def applyColorLoop (c : RGB) : List ℤ → Buffer → List ℤ → Buffer × List ℤ
  | [], buf, warns => (buf, warns)
  | addr :: rest, buf, warns =>
    if inRange addr then applyColorLoop c rest (buf.set addr.toNat c) warns
    else applyColorLoop c rest buf (warns ++ [addr])

/-- `set_led_color` (main.py lines 52-75): validate the color name (on
failure print an error and return with no write and no flush), write each
in-range address, then call `pixels.show()` once. -/
def set_led_color (color_name : String) (address_list : List ℤ) (buf : Buffer) :
    DeviceResult :=
  match lookupColor color_name with
  | none => ⟨buf, [], 0, some color_name⟩
  | some color =>
    let r := applyColorLoop color address_list buf []
    ⟨r.1, r.2, 1, none⟩

/-- The write loop of `reset_leds` (main.py lines 132-134): in-range
addresses are set to black; out-of-range addresses are skipped with no
warning (the loop has no else branch). -/
def resetLoop : List ℤ → Buffer → Buffer
  | [], buf => buf
  | addr :: rest, buf =>
    resetLoop rest (if inRange addr then buf.set addr.toNat ((0, 0, 0) : RGB) else buf)

/-- `reset_leds` (main.py lines 125-137): zero the in-range addresses and
call `pixels.show()` once; no validation warnings are ever printed. -/
def reset_leds (address_list : List ℤ) (buf : Buffer) : DeviceResult :=
  ⟨resetLoop address_list buf, [], 1, none⟩

/-! ### Waveform generator (main.py lines 102-106) -/

/-- The brightness formula of main.py line 102,
`(math.sin(math.pi * step / (total_steps / 2)) + 1) / 2`, written with
the half-cycle step count as a real parameter (the code passes
`total_steps / 2` as a float). -/
noncomputable def brightness (step : ℕ) (totalStepsPerHalfCycle : ℝ) : ℝ :=
  (Real.sin (Real.pi * step / totalStepsPerHalfCycle) + 1) / 2

/-- Python `int(x)`: truncation toward zero. -/
noncomputable def truncToward0 (x : ℝ) : ℤ :=
  if 0 ≤ x then ⌊x⌋ else -⌊-x⌋

/-- Color scaling of main.py line 106,
`tuple(int(c * brightness) for c in base_color)`. -/
noncomputable def scaleColor (base : RGB) (b : ℝ) : RGB :=
  (truncToward0 ((base.1 : ℝ) * b),
   truncToward0 ((base.2.1 : ℝ) * b),
   truncToward0 ((base.2.2 : ℝ) * b))

/-! ### The breathing-effect frame loop (main.py lines 77-123)

The stop event of a thread is modeled as the sequence of boolean values
returned by successive `stop_event.is_set()` calls, indexed by a check
counter.  `threading.Event` is only ever `set` in this program (never
cleared), so the read sequence is monotone; that hypothesis appears in
the theorems, not in the definitions. -/

/-- Result of one `breathe_effect` call: final buffer, number of frames
fully executed, number of `pixels.show()` calls, and the
color-validation error if any. -/
structure EffectResult where
  buffer : Buffer
  framesRun : ℕ
  flushes : ℕ
  error : Option String

/-- The inner `for step in range(total_steps)` loop (main.py lines
97-119).  State: remaining step indices, check counter, frame counter,
buffer.  Each iteration first reads `stop_event.is_set()`; if set it
breaks, otherwise it writes the scaled color to the addresses (same
write-and-warn loop as `set_led_color`), flushes, and sleeps. -/
noncomputable def breatheFor (color : RGB) (addrs : List ℤ) (total_steps : ℕ)
    (reads : ℕ → Bool) : List ℕ → ℕ → ℕ → Buffer → ℕ × ℕ × Buffer
  | [], checks, frames, buf => (checks, frames, buf)
  | step :: rest, checks, frames, buf =>
    if reads checks then (checks + 1, frames, buf)
    else
      breatheFor color addrs total_steps reads rest (checks + 1) (frames + 1)
        (applyColorLoop (scaleColor color (brightness step ((total_steps : ℝ) / 2)))
          addrs buf []).1

/-- The outer `while not stop_event.is_set()` loop (main.py line 96),
bounded by fuel (the number of while iterations modeled). -/
noncomputable def breatheWhile (color : RGB) (addrs : List ℤ) (total_steps : ℕ)
    (reads : ℕ → Bool) : ℕ → ℕ → ℕ → Buffer → ℕ × ℕ × Buffer
  | 0, checks, frames, buf => (checks, frames, buf)
  | fuel + 1, checks, frames, buf =>
    if reads checks then (checks + 1, frames, buf)
    else
      let r := breatheFor color addrs total_steps reads (List.range total_steps)
        (checks + 1) frames buf
      breatheWhile color addrs total_steps reads fuel r.1 r.2.1 r.2.2

/-- `breathe_effect` (main.py lines 77-123): validate the color name (on
failure print an error and return before any frame, any flush or any
cleanup), run the nested loops, then perform the mandatory cleanup
`reset_leds(address_list, thread_id)` (line 122).  Each frame flushes
once and the cleanup flushes once. -/
noncomputable def breathe_effect (color_name : String) (address_list : List ℤ)
    (duration fps : ℕ) (reads : ℕ → Bool) (fuel : ℕ) (buf : Buffer) : EffectResult :=
  match lookupColor color_name with
  | none => ⟨buf, 0, 0, some color_name⟩
  | some color =>
    let total_steps := duration * fps
    let r := breatheWhile color address_list total_steps reads fuel 0 0 buf
    let rr := reset_leds address_list r.2.2
    ⟨rr.buffer, r.2.1, r.2.1 + 1, none⟩

/-! ### Thread registry (main.py lines 44-46, 220-237, 251-268, 270-288) -/

/-- One entry of `active_threads`: the thread id key, the arguments the
breathing thread was started with, and its stop event's state. -/
structure Effect where
  id : ℕ
  color : String
  addrs : List ℤ
  stopSet : Bool

/-- The mutable global state: the pixel buffer and the `active_threads`
dictionary (its keys are `1, 2, …` in insertion order, so it is kept as
an insertion-ordered list). -/
structure SysState where
  buffer : Buffer
  active_threads : List Effect

/-- Starting one breathing thread under `thread_lock` (main.py lines
220-236 and 251-267): `thread_id = len(active_threads) + 1`, a fresh
unset stop event, and `active_threads[thread_id] = {...}`.  Returns the
new state and the id handed out. -/
def start_effect (s : SysState) (color : String) (addrs : List ℤ) : SysState × ℕ :=
  let thread_id := s.active_threads.length + 1
  (⟨s.buffer, s.active_threads ++ [⟨thread_id, color, addrs, false⟩]⟩, thread_id)

/-- `stop_all_breathing_effects` (main.py lines 270-288): set every
tracked thread's stop event, then join each thread in turn — the joined
thread sees its event set, leaves its loop, and runs the tail of
`breathe_effect` (modeled by `breathe_effect` with an always-true read
sequence, which performs only the `reset_leds(address_list)` cleanup of
line 122) — after each join the main thread calls `reset_leds([])`
(line 284), and finally `active_threads.clear()`. -/
noncomputable def stop_all_breathing_effects (s : SysState) : SysState :=
  let signaled := s.active_threads.map (fun e => ⟨e.id, e.color, e.addrs, true⟩ : Effect → Effect)
  let joined := signaled.foldl
    (fun (b : Buffer) (e : Effect) =>
      (reset_leds []
        ((breathe_effect e.color e.addrs BREATH_DURATION FPS (fun _ => true) 1 b).buffer)).buffer)
    s.buffer
  ⟨joined, []⟩

/-- A sequence of `start` operations with no intervening
`stop_all_breathing_effects`, returning the final state and the thread
ids handed out in order. -/
def runStarts (s : SysState) : List (String × List ℤ) → SysState × List ℕ
  | [] => (s, [])
  | (c, addrs) :: rest =>
    let r := start_effect s c addrs
    let rr := runStarts r.1 rest
    (rr.1, r.2 :: rr.2)

/-! ### Resolver and command handler (main.py lines 139-268) -/

/-- One row of the SKU spreadsheet: columns `Label` and `Address`. -/
structure SkuRow where
  label : String
  address : ℤ

/-- One row of the sales-order CSV: columns `id` and `sku` (both read as
strings, main.py line 305). -/
structure OrderRow where
  id : String
  sku : String

/-- Python `str.lower()` (character-wise lowercasing). -/
def str_toLower (s : String) : String :=
  ⟨s.data.map Char.toLower⟩

/-- `find_address_by_sku` (main.py lines 139-157): case-insensitive
match on the `Label` column; `None` when no row matches, otherwise the
`Address` values of the matching rows. -/
def find_address_by_sku (df_sku : List SkuRow) (sku_input : String) : Option (List ℤ) :=
  if (df_sku.filter (fun r => str_toLower r.label == str_toLower sku_input)).isEmpty then none
  else some ((df_sku.filter (fun r => str_toLower r.label == str_toLower sku_input)).map
    (fun r => r.address))

/-- `find_skus_by_sales_order` (main.py lines 159-175): exact match on
the stringified `id` column; `None` when no row matches, otherwise the
`sku` values of the matching rows. -/
def find_skus_by_sales_order (df_order : List OrderRow) (sales_order_id : String) :
    Option (List String) :=
  if (df_order.filter (fun r => r.id == sales_order_id)).isEmpty then none
  else some ((df_order.filter (fun r => r.id == sales_order_id)).map (fun r => r.sku))

/-- Python `str.isdigit()` on the stripped token: true exactly when the
string is non-empty and every character is a digit. -/
def str_isdigit (s : String) : Bool :=
  !s.isEmpty && s.toList.all Char.isDigit

/-- Which branch of `handle_input` a token reaches. -/
inductive InputAction where
  | exitProg
  | orderLookup
  | skuLookup
deriving DecidableEq

/-- Result of one `handle_input` call: the state afterwards, the thread
ids started (in order), and the branch taken. -/
structure HandleResult where
  state : SysState
  started : List ℕ
  action : InputAction

/-- The first pass of the sales-order branch (main.py lines 202-206):
collect `all_addresses` by extending with each SKU's addresses when the
lookup result is truthy. -/
def collectAddresses (df_sku : List SkuRow) : List String → List ℤ
  | [] => []
  | sku :: rest =>
    match find_address_by_sku df_sku sku with
    | some addrs =>
      if addrs.isEmpty then collectAddresses df_sku rest
      else addrs ++ collectAddresses df_sku rest
    | none => collectAddresses df_sku rest

/-- The second pass of the sales-order branch (main.py lines 214-237):
for each SKU whose lookup is truthy, start a "White" breathing thread. -/
def startForSkus (df_sku : List SkuRow) : List String → SysState → SysState × List ℕ
  | [], s => (s, [])
  | sku :: rest, s =>
    match find_address_by_sku df_sku sku with
    | some addrs =>
      if addrs.isEmpty then startForSkus df_sku rest s
      else
        let r := start_effect s "White" addrs
        let rr := startForSkus df_sku rest r.1
        (rr.1, r.2 :: rr.2)
    | none => startForSkus df_sku rest s

/-- `handle_input` (main.py lines 177-268) on an already-stripped token:
`exit` check, then `isdigit` classification; the numeric branch resolves
the sales order to SKUs and their addresses and starts one thread per
SKU with addresses (or returns with no state change when nothing
resolves); the other branch resolves the token as a SKU and starts one
thread (or returns with no state change when no match). -/
def handle_input (df_sku : List SkuRow) (df_order : List OrderRow)
    (user_input : String) (s : SysState) : HandleResult :=
  if str_toLower user_input == "exit" then ⟨s, [], InputAction.exitProg⟩
  else if str_isdigit user_input then
    match find_skus_by_sales_order df_order user_input with
    | none => ⟨s, [], InputAction.orderLookup⟩
    | some skus =>
      if (collectAddresses df_sku skus).isEmpty then ⟨s, [], InputAction.orderLookup⟩
      else
        ⟨(startForSkus df_sku skus s).1, (startForSkus df_sku skus s).2,
         InputAction.orderLookup⟩
  else
    match find_address_by_sku df_sku user_input with
    | none => ⟨s, [], InputAction.skuLookup⟩
    | some addrs =>
      ⟨(start_effect s "White" addrs).1, [(start_effect s "White" addrs).2],
       InputAction.skuLookup⟩

/-- The address set the Resolver yields for a token: the same lookups
`handle_input` performs, with a failed lookup yielding the empty set. -/
def resolve_addresses (df_sku : List SkuRow) (df_order : List OrderRow)
    (token : String) : List ℤ :=
  if str_isdigit token then
    match find_skus_by_sales_order df_order token with
    | none => []
    | some skus => collectAddresses df_sku skus
  else
    match find_address_by_sku df_sku token with
    | none => []
    | some addrs => addrs

/-! ### Lemmas about the device write loops -/

theorem applyColorLoop_length (c : RGB) (addrs : List ℤ) (buf : Buffer) (warns : List ℤ) :
    (applyColorLoop c addrs buf warns).1.length = buf.length := by
  induction addrs generalizing buf warns with
  | nil => rfl
  | cons a rest ih =>
    by_cases h : inRange a = true
    · simp only [applyColorLoop, if_pos h]
      rw [ih]
      exact List.length_set buf a.toNat c
    · simp only [applyColorLoop, if_neg h]
      exact ih buf (warns ++ [a])

theorem applyColorLoop_untouched (c : RGB) (addrs : List ℤ) (buf : Buffer) (warns : List ℤ)
    (i : ℕ) (hi : ∀ a : ℤ, a ∈ addrs → inRange a = true → a.toNat ≠ i) :
    (applyColorLoop c addrs buf warns).1[i]? = buf[i]? := by
  induction addrs generalizing buf warns with
  | nil => rfl
  | cons a rest ih =>
    by_cases h : inRange a = true
    · have hne : a.toNat ≠ i := hi a (List.mem_cons_self a rest) h
      simp only [applyColorLoop, if_pos h]
      rw [ih (buf.set a.toNat c) warns (fun a' ha' h' => hi a' (List.mem_cons_of_mem a ha') h')]
      exact List.getElem?_set_ne hne
    · simp only [applyColorLoop, if_neg h]
      exact ih buf (warns ++ [a]) (fun a' ha' h' => hi a' (List.mem_cons_of_mem a ha') h')

theorem inRange_bounds {a : ℤ} (h : inRange a = true) : 0 ≤ a ∧ a < (LED_COUNT : ℤ) := by
  simpa [inRange] using h

theorem applyColorLoop_written (c : RGB) (addrs : List ℤ) (buf : Buffer) (warns : List ℤ)
    (hlen : buf.length = LED_COUNT) (a : ℤ) (ha : a ∈ addrs) (hr : inRange a = true) :
    (applyColorLoop c addrs buf warns).1[a.toNat]? = some c := by
  induction addrs generalizing buf warns with
  | nil => cases ha
  | cons a0 rest ih =>
    rcases List.mem_cons.mp ha with rfl | hmem
    · simp only [applyColorLoop, if_pos hr]
      by_cases hin : a ∈ rest
      · exact ih (buf.set a.toNat c) warns (by rw [List.length_set]; exact hlen) hin
      · have hunt : ∀ a' : ℤ, a' ∈ rest → inRange a' = true → a'.toNat ≠ a.toNat := by
          intro a' ha' h' heq
          have hb := inRange_bounds h'
          have hb0 := inRange_bounds hr
          have : a' = a := by omega
          exact hin (this ▸ ha')
        rw [applyColorLoop_untouched c rest _ warns a.toNat hunt]
        have hlt : a.toNat < buf.length := by
          have hb := inRange_bounds hr
          simp only [hlen, LED_COUNT] at *
          omega
        exact List.getElem?_set_eq_of_lt c hlt
    · by_cases h : inRange a0 = true
      · simp only [applyColorLoop, if_pos h]
        exact ih (buf.set a0.toNat c) warns (by rw [List.length_set]; exact hlen) hmem
      · simp only [applyColorLoop, if_neg h]
        exact ih buf (warns ++ [a0]) hlen hmem

theorem applyColorLoop_warnings (c : RGB) (addrs : List ℤ) (buf : Buffer) (warns : List ℤ) :
    (applyColorLoop c addrs buf warns).2 = warns ++ addrs.filter (fun a => !inRange a) := by
  induction addrs generalizing buf warns with
  | nil => simp [applyColorLoop]
  | cons a rest ih =>
    by_cases h : inRange a = true
    · simp [applyColorLoop, h, ih]
    · simp only [Bool.not_eq_true] at h
      simp [applyColorLoop, h, ih]

theorem resetLoop_eq_applyColorLoop (addrs : List ℤ) (buf : Buffer) (warns : List ℤ) :
    resetLoop addrs buf = (applyColorLoop ((0, 0, 0) : RGB) addrs buf warns).1 := by
  induction addrs generalizing buf warns with
  | nil => rfl
  | cons a rest ih =>
    by_cases h : inRange a = true
    · simp only [resetLoop, applyColorLoop, if_pos h]
      exact ih (buf.set a.toNat ((0, 0, 0) : RGB)) warns
    · simp only [resetLoop, applyColorLoop, if_neg h]
      exact ih buf (warns ++ [a])

theorem truncToward0_channel (c : ℤ) (b : ℝ) (hc : 0 ≤ c) (hb0 : 0 ≤ b) (hb1 : b ≤ 1) :
    0 ≤ truncToward0 ((c : ℝ) * b) ∧ truncToward0 ((c : ℝ) * b) ≤ c := by
  have hcr : (0 : ℝ) ≤ (c : ℝ) := by exact_mod_cast hc
  have hx : 0 ≤ (c : ℝ) * b := mul_nonneg hcr hb0
  rw [truncToward0, if_pos hx]
  refine ⟨Int.floor_nonneg.mpr hx, ?_⟩
  calc ⌊(c : ℝ) * b⌋ ≤ ⌊(c : ℝ)⌋ := Int.floor_le_floor (by nlinarith)
    _ = c := Int.floor_intCast c

/-! ### Lemmas about the frame loop -/

theorem breatheFor_length (color : RGB) (addrs : List ℤ) (total_steps : ℕ)
    (reads : ℕ → Bool) (steps : List ℕ) (checks frames : ℕ) (buf : Buffer) :
    (breatheFor color addrs total_steps reads steps checks frames buf).2.2.length
      = buf.length := by
  induction steps generalizing checks frames buf with
  | nil => rfl
  | cons s rest ih =>
    by_cases h : reads checks = true
    · simp [breatheFor, h]
    · simp only [breatheFor, h, Bool.false_eq_true, if_false]
      rw [ih]
      exact applyColorLoop_length _ addrs buf []

theorem breatheWhile_length (color : RGB) (addrs : List ℤ) (total_steps : ℕ)
    (reads : ℕ → Bool) (fuel checks frames : ℕ) (buf : Buffer) :
    (breatheWhile color addrs total_steps reads fuel checks frames buf).2.2.length
      = buf.length := by
  induction fuel generalizing checks frames buf with
  | zero => rfl
  | succ n ih =>
    by_cases h : reads checks = true
    · simp [breatheWhile, h]
    · simp only [breatheWhile, h, Bool.false_eq_true, if_false]
      rw [ih]
      exact breatheFor_length color addrs total_steps reads _ _ _ buf

theorem breatheFor_frames_bound (color : RGB) (addrs : List ℤ) (total_steps : ℕ)
    (reads : ℕ → Bool)
    (hmono : ∀ i j : ℕ, i ≤ j → reads i = true → reads j = true)
    (K : ℕ) (hK : reads K = true)
    (steps : List ℕ) (checks frames : ℕ) (buf : Buffer) :
    (breatheFor color addrs total_steps reads steps checks frames buf).2.1
      + (K - (breatheFor color addrs total_steps reads steps checks frames buf).1)
      ≤ frames + (K - checks) := by
  induction steps generalizing checks frames buf with
  | nil => exact le_refl _
  | cons s rest ih =>
    by_cases h : reads checks = true
    · simp only [breatheFor, h, if_true]
      omega
    · have hcK : checks < K := by
        by_contra hc
        exact h (hmono K checks (by omega) hK)
      simp only [breatheFor, h, Bool.false_eq_true, if_false]
      have := ih (checks + 1) (frames + 1)
        (applyColorLoop (scaleColor color (brightness s ((total_steps : ℝ) / 2))) addrs buf []).1
      omega

theorem breatheWhile_frames_bound (color : RGB) (addrs : List ℤ) (total_steps : ℕ)
    (reads : ℕ → Bool)
    (hmono : ∀ i j : ℕ, i ≤ j → reads i = true → reads j = true)
    (K : ℕ) (hK : reads K = true)
    (fuel checks frames : ℕ) (buf : Buffer) :
    (breatheWhile color addrs total_steps reads fuel checks frames buf).2.1
      + (K - (breatheWhile color addrs total_steps reads fuel checks frames buf).1)
      ≤ frames + (K - checks) := by
  induction fuel generalizing checks frames buf with
  | zero => exact le_refl _
  | succ n ih =>
    by_cases h : reads checks = true
    · simp only [breatheWhile, h, if_true]
      omega
    · have hcK : checks < K := by
        by_contra hc
        exact h (hmono K checks (by omega) hK)
      simp only [breatheWhile, h, Bool.false_eq_true, if_false]
      have hfor := breatheFor_frames_bound color addrs total_steps reads hmono K hK
        (List.range total_steps) (checks + 1) frames buf
      have := ih (breatheFor color addrs total_steps reads (List.range total_steps)
          (checks + 1) frames buf).1
        (breatheFor color addrs total_steps reads (List.range total_steps)
          (checks + 1) frames buf).2.1
        (breatheFor color addrs total_steps reads (List.range total_steps)
          (checks + 1) frames buf).2.2
      omega

theorem find_address_by_sku_ne_nil (df_sku : List SkuRow) (q : String) (l : List ℤ)
    (h : find_address_by_sku df_sku q = some l) : l ≠ [] := by
  unfold find_address_by_sku at h
  by_cases he : (df_sku.filter
      (fun r => str_toLower r.label == str_toLower q)).isEmpty = true
  · rw [if_pos he] at h
    cases h
  · rw [if_neg he] at h
    have hl : (df_sku.filter (fun r => str_toLower r.label == str_toLower q)).map
        (fun r => r.address) = l := by
      injection h
    intro hnil
    rw [hnil] at hl
    rw [List.map_eq_nil_iff] at hl
    rw [hl] at he
    exact he rfl

/-! ### Claim theorems -/

/-- C3: For every color name not present in the palette, both the direct
set operation (`set_led_color`) and Effect creation (`breathe_effect`)
reject the request with a reported error before any frame runs, with no
side effects: the pixel buffer is unchanged, no flush occurs, and no
frame of the Effect ever executes, for every stop schedule and fuel. -/
theorem unknown_color_rejected_no_side_effects (name : String)
    (hname : lookupColor name = none) (addrs : List ℤ) (duration fps fuel : ℕ)
    (reads : ℕ → Bool) (buf : Buffer) :
    set_led_color name addrs buf = ⟨buf, [], 0, some name⟩
    ∧ breathe_effect name addrs duration fps reads fuel buf = ⟨buf, 0, 0, some name⟩ := by
  constructor
  · unfold set_led_color
    rw [hname]
  · unfold breathe_effect
    rw [hname]

/-- Witness for C3 at the unknown color name "Pink". -/
theorem unknown_color_rejected_no_side_effects_witness :
    lookupColor "Pink" = none
    ∧ (set_led_color "Pink" [(3 : ℤ)] (List.replicate LED_COUNT ((0, 0, 0) : RGB))
        = ⟨List.replicate LED_COUNT ((0, 0, 0) : RGB), [], 0, some "Pink"⟩
      ∧ breathe_effect "Pink" [(3 : ℤ)] 5 30 (fun _ => false) 4
          (List.replicate LED_COUNT ((0, 0, 0) : RGB))
        = ⟨List.replicate LED_COUNT ((0, 0, 0) : RGB), 0, 0, some "Pink"⟩) :=
  ⟨rfl, unknown_color_rejected_no_side_effects "Pink" rfl [(3 : ℤ)] 5 30 4
    (fun _ => false) (List.replicate LED_COUNT ((0, 0, 0) : RGB))⟩

/-- C4: For every address list containing both valid and out-of-range
indices, `set_led_color` with a palette color writes the color to every
listed in-range address, emits exactly one warning per out-of-range
address while skipping it (positions no in-range listed address names are
unchanged), leaves the buffer length unchanged, and performs exactly one
flush after processing all addresses. -/
theorem set_led_color_mixed_addresses (name : String) (c : RGB) (addrs : List ℤ)
    (buf : Buffer) (hname : lookupColor name = some c) (hlen : buf.length = LED_COUNT) :
    (set_led_color name addrs buf).buffer.length = LED_COUNT
    ∧ (∀ a : ℤ, a ∈ addrs → inRange a = true →
        (set_led_color name addrs buf).buffer[a.toNat]? = some c)
    ∧ (∀ i : ℕ, (∀ a : ℤ, a ∈ addrs → inRange a = true → a.toNat ≠ i) →
        (set_led_color name addrs buf).buffer[i]? = buf[i]?)
    ∧ (set_led_color name addrs buf).warnings = addrs.filter (fun a => !inRange a)
    ∧ (set_led_color name addrs buf).flushes = 1 := by
  have hset : set_led_color name addrs buf
      = ⟨(applyColorLoop c addrs buf []).1, (applyColorLoop c addrs buf []).2, 1, none⟩ := by
    unfold set_led_color
    rw [hname]
  rw [hset]
  refine ⟨?_, ?_, ?_, ?_, rfl⟩
  · rw [applyColorLoop_length]
    exact hlen
  · intro a ha hr
    exact applyColorLoop_written c addrs buf [] hlen a ha hr
  · intro i hi
    exact applyColorLoop_untouched c addrs buf [] i hi
  · rw [applyColorLoop_warnings]
    rfl

/-- Witness for C4: color "Blue" on the mixed list `[0, 100, 3, -2]`. -/
theorem set_led_color_mixed_addresses_witness :
    lookupColor "Blue" = some ((0, 0, 255) : RGB)
    ∧ (List.replicate LED_COUNT ((0, 0, 0) : RGB)).length = LED_COUNT
    ∧ ((set_led_color "Blue" [(0 : ℤ), 100, 3, -2]
          (List.replicate LED_COUNT ((0, 0, 0) : RGB))).buffer.length = LED_COUNT
      ∧ (∀ a : ℤ, a ∈ [(0 : ℤ), 100, 3, -2] → inRange a = true →
          (set_led_color "Blue" [(0 : ℤ), 100, 3, -2]
            (List.replicate LED_COUNT ((0, 0, 0) : RGB))).buffer[a.toNat]?
            = some ((0, 0, 255) : RGB))
      ∧ (∀ i : ℕ,
          (∀ a : ℤ, a ∈ [(0 : ℤ), 100, 3, -2] → inRange a = true → a.toNat ≠ i) →
          (set_led_color "Blue" [(0 : ℤ), 100, 3, -2]
            (List.replicate LED_COUNT ((0, 0, 0) : RGB))).buffer[i]?
            = (List.replicate LED_COUNT ((0, 0, 0) : RGB))[i]?)
      ∧ (set_led_color "Blue" [(0 : ℤ), 100, 3, -2]
          (List.replicate LED_COUNT ((0, 0, 0) : RGB))).warnings
          = List.filter (fun a => !inRange a) [(0 : ℤ), 100, 3, -2]
      ∧ (set_led_color "Blue" [(0 : ℤ), 100, 3, -2]
          (List.replicate LED_COUNT ((0, 0, 0) : RGB))).flushes = 1) :=
  ⟨rfl, by decide,
   set_led_color_mixed_addresses "Blue" ((0, 0, 255) : RGB) [(0 : ℤ), 100, 3, -2]
     (List.replicate LED_COUNT ((0, 0, 0) : RGB)) rfl (by decide)⟩

/-- C5 counterexample: the claim predicts that `reset_leds` follows the
same validation discipline as `set_led_color` and warns once for the
out-of-range address 100, but `reset_leds [100]` prints no warning. -/
theorem reset_leds_no_warning_counterexample :
    ¬ ((reset_leds [(100 : ℤ)] (List.replicate LED_COUNT ((0, 0, 0) : RGB))).warnings.length
        = 1) := by
  decide

/-- C5 (amended): for every address list, `reset_leds` sets the in-range
addresses to (0,0,0), silently skips each out-of-range address without
any warning (unlike `set_led_color`, it never warns), leaves other
positions and the buffer length unchanged, and performs one flush after
processing all addresses. -/
theorem reset_leds_discipline (addrs : List ℤ) (buf : Buffer)
    (hlen : buf.length = LED_COUNT) :
    (reset_leds addrs buf).buffer.length = LED_COUNT
    ∧ (∀ a : ℤ, a ∈ addrs → inRange a = true →
        (reset_leds addrs buf).buffer[a.toNat]? = some ((0, 0, 0) : RGB))
    ∧ (∀ i : ℕ, (∀ a : ℤ, a ∈ addrs → inRange a = true → a.toNat ≠ i) →
        (reset_leds addrs buf).buffer[i]? = buf[i]?)
    ∧ (reset_leds addrs buf).warnings = []
    ∧ (reset_leds addrs buf).flushes = 1 := by
  have hb : (reset_leds addrs buf).buffer
      = (applyColorLoop ((0, 0, 0) : RGB) addrs buf []).1 := by
    unfold reset_leds
    exact resetLoop_eq_applyColorLoop addrs buf []
  refine ⟨?_, ?_, ?_, rfl, rfl⟩
  · rw [hb, applyColorLoop_length]
    exact hlen
  · intro a ha hr
    rw [hb]
    exact applyColorLoop_written _ addrs buf [] hlen a ha hr
  · intro i hi
    rw [hb]
    exact applyColorLoop_untouched _ addrs buf [] i hi

/-- Witness for the amended C5 on the mixed list `[7, 100]`. -/
theorem reset_leds_discipline_witness :
    (List.replicate LED_COUNT ((0, 0, 0) : RGB)).length = LED_COUNT
    ∧ ((reset_leds [(7 : ℤ), 100]
          (List.replicate LED_COUNT ((0, 0, 0) : RGB))).buffer.length = LED_COUNT
      ∧ (∀ a : ℤ, a ∈ [(7 : ℤ), 100] → inRange a = true →
          (reset_leds [(7 : ℤ), 100]
            (List.replicate LED_COUNT ((0, 0, 0) : RGB))).buffer[a.toNat]?
            = some ((0, 0, 0) : RGB))
      ∧ (∀ i : ℕ, (∀ a : ℤ, a ∈ [(7 : ℤ), 100] → inRange a = true → a.toNat ≠ i) →
          (reset_leds [(7 : ℤ), 100]
            (List.replicate LED_COUNT ((0, 0, 0) : RGB))).buffer[i]?
            = (List.replicate LED_COUNT ((0, 0, 0) : RGB))[i]?)
      ∧ (reset_leds [(7 : ℤ), 100]
          (List.replicate LED_COUNT ((0, 0, 0) : RGB))).warnings = []
      ∧ (reset_leds [(7 : ℤ), 100]
          (List.replicate LED_COUNT ((0, 0, 0) : RGB))).flushes = 1) :=
  ⟨by decide,
   reset_leds_discipline [(7 : ℤ), 100] (List.replicate LED_COUNT ((0, 0, 0) : RGB))
     (by decide)⟩

/-- C7: for every step and every positive integer half-cycle step count
T, the code's brightness equals `(sin(π·step/T) + 1) / 2`, lies in
`[0, 1]`, is periodic with period `2·T` steps, and in particular
`brightness 0 T = brightness (2·T) T`. -/
theorem brightness_range_and_period (step T : ℕ) (hT : 0 < T) :
    brightness step (T : ℝ) = (Real.sin (Real.pi * step / T) + 1) / 2
    ∧ 0 ≤ brightness step (T : ℝ)
    ∧ brightness step (T : ℝ) ≤ 1
    ∧ brightness (step + 2 * T) (T : ℝ) = brightness step (T : ℝ)
    ∧ brightness 0 (T : ℝ) = brightness (2 * T) (T : ℝ) := by
  have hT0 : (T : ℝ) ≠ 0 := by
    exact_mod_cast hT.ne'
  have hper : ∀ s : ℕ, brightness (s + 2 * T) (T : ℝ) = brightness s (T : ℝ) := by
    intro s
    unfold brightness
    have harg : Real.pi * ((s + 2 * T : ℕ) : ℝ) / (T : ℝ)
        = Real.pi * (s : ℝ) / (T : ℝ) + 2 * Real.pi := by
      push_cast
      field_simp
      ring
    rw [harg, Real.sin_add_two_pi]
  have hs1 := Real.sin_le_one (Real.pi * step / (T : ℝ))
  have hs2 := Real.neg_one_le_sin (Real.pi * step / (T : ℝ))
  refine ⟨rfl, ?_, ?_, hper step, ?_⟩
  · unfold brightness
    linarith
  · unfold brightness
    linarith
  · have := hper 0
    simpa using this.symm

/-- Witness for C7 at step 0, T = 75 (the code's half-cycle for
duration 5 s at 30 fps). -/
theorem brightness_range_and_period_witness :
    0 < 75
    ∧ (brightness 0 ((75 : ℕ) : ℝ) = (Real.sin (Real.pi * (0 : ℕ) / (75 : ℕ)) + 1) / 2
      ∧ 0 ≤ brightness 0 ((75 : ℕ) : ℝ)
      ∧ brightness 0 ((75 : ℕ) : ℝ) ≤ 1
      ∧ brightness (0 + 2 * 75) ((75 : ℕ) : ℝ) = brightness 0 ((75 : ℕ) : ℝ)
      ∧ brightness 0 ((75 : ℕ) : ℝ) = brightness (2 * 75) ((75 : ℕ) : ℝ)) :=
  ⟨by decide, brightness_range_and_period 0 75 (by decide)⟩

/-- C8: `scaleColor` multiplies each channel by the brightness and
truncates toward zero, so for every base with nonnegative channels and
every brightness in `[0, 1]` each output channel lies in `[0, channel]`;
in particular `scaleColor (255,165,0) 0 = (0,0,0)` and
`scaleColor (255,165,0) 1 = (255,165,0)`. -/
theorem scaleColor_bounds_and_endpoints (base : RGB) (b : ℝ)
    (hb0 : 0 ≤ b) (hb1 : b ≤ 1)
    (h1 : 0 ≤ base.1) (h2 : 0 ≤ base.2.1) (h3 : 0 ≤ base.2.2) :
    (0 ≤ (scaleColor base b).1 ∧ (scaleColor base b).1 ≤ base.1)
    ∧ (0 ≤ (scaleColor base b).2.1 ∧ (scaleColor base b).2.1 ≤ base.2.1)
    ∧ (0 ≤ (scaleColor base b).2.2 ∧ (scaleColor base b).2.2 ≤ base.2.2)
    ∧ scaleColor ((255, 165, 0) : RGB) 0 = ((0, 0, 0) : RGB)
    ∧ scaleColor ((255, 165, 0) : RGB) 1 = ((255, 165, 0) : RGB) := by
  refine ⟨truncToward0_channel base.1 b h1 hb0 hb1,
    truncToward0_channel base.2.1 b h2 hb0 hb1,
    truncToward0_channel base.2.2 b h3 hb0 hb1, ?_, ?_⟩
  · unfold scaleColor truncToward0
    norm_num
  · unfold scaleColor truncToward0
    norm_num [Int.floor_intCast]

/-- Witness for C8 at base (255,165,0) and brightness 1/2. -/
theorem scaleColor_bounds_and_endpoints_witness :
    (0 : ℝ) ≤ 1 / 2 ∧ (1 / 2 : ℝ) ≤ 1
    ∧ (0 : ℤ) ≤ 255 ∧ (0 : ℤ) ≤ 165 ∧ (0 : ℤ) ≤ 0
    ∧ ((0 ≤ (scaleColor ((255, 165, 0) : RGB) (1 / 2)).1
        ∧ (scaleColor ((255, 165, 0) : RGB) (1 / 2)).1 ≤ ((255, 165, 0) : RGB).1)
      ∧ (0 ≤ (scaleColor ((255, 165, 0) : RGB) (1 / 2)).2.1
        ∧ (scaleColor ((255, 165, 0) : RGB) (1 / 2)).2.1 ≤ ((255, 165, 0) : RGB).2.1)
      ∧ (0 ≤ (scaleColor ((255, 165, 0) : RGB) (1 / 2)).2.2
        ∧ (scaleColor ((255, 165, 0) : RGB) (1 / 2)).2.2 ≤ ((255, 165, 0) : RGB).2.2)
      ∧ scaleColor ((255, 165, 0) : RGB) 0 = ((0, 0, 0) : RGB)
      ∧ scaleColor ((255, 165, 0) : RGB) 1 = ((255, 165, 0) : RGB)) :=
  ⟨by norm_num, by norm_num, by decide, by decide, by decide,
   scaleColor_bounds_and_endpoints ((255, 165, 0) : RGB) (1 / 2)
     (by norm_num) (by norm_num) (by decide) (by decide) (by decide)⟩

/-- C6: in every execution of the frame loop of an Effect with a valid
color, the stop event is read before each frame; with a monotone read
sequence (the event is only ever set) that reads true at check K, at
most K frames execute — the loop exits without the remaining steps of
the cycle — and the Effect then performs its mandatory cleanup, zeroing
every in-range address of its address list, before terminating. -/
theorem breathe_effect_cancellation_cleanup (name : String) (c : RGB)
    (hc : lookupColor name = some c) (addrs : List ℤ) (duration fps fuel : ℕ)
    (reads : ℕ → Bool)
    (hmono : ∀ i j : ℕ, i ≤ j → reads i = true → reads j = true)
    (K : ℕ) (hK : reads K = true) (buf : Buffer) (hlen : buf.length = LED_COUNT) :
    (breathe_effect name addrs duration fps reads fuel buf).framesRun ≤ K
    ∧ (∀ a : ℤ, a ∈ addrs → inRange a = true →
        (breathe_effect name addrs duration fps reads fuel buf).buffer[a.toNat]?
          = some ((0, 0, 0) : RGB)) := by
  have hbe : breathe_effect name addrs duration fps reads fuel buf
      = ⟨(reset_leds addrs
            (breatheWhile c addrs (duration * fps) reads fuel 0 0 buf).2.2).buffer,
         (breatheWhile c addrs (duration * fps) reads fuel 0 0 buf).2.1,
         (breatheWhile c addrs (duration * fps) reads fuel 0 0 buf).2.1 + 1,
         none⟩ := by
    unfold breathe_effect
    rw [hc]
  rw [hbe]
  constructor
  · dsimp only
    have := breatheWhile_frames_bound c addrs (duration * fps) reads hmono K hK
      fuel 0 0 buf
    omega
  · intro a ha hr
    have hlen2 : (breatheWhile c addrs (duration * fps) reads fuel 0 0 buf).2.2.length
        = LED_COUNT := by
      rw [breatheWhile_length]
      exact hlen
    have hb : (reset_leds addrs
          (breatheWhile c addrs (duration * fps) reads fuel 0 0 buf).2.2).buffer
        = (applyColorLoop ((0, 0, 0) : RGB) addrs
            (breatheWhile c addrs (duration * fps) reads fuel 0 0 buf).2.2 []).1 := by
      unfold reset_leds
      exact resetLoop_eq_applyColorLoop addrs _ []
    rw [hb]
    exact applyColorLoop_written _ addrs _ [] hlen2 a ha hr

/-- Witness for C6: color "White" on addresses `[2, 70]` with a stop
event that is already set at the first check (K = 0). -/
theorem breathe_effect_cancellation_cleanup_witness :
    lookupColor "White" = some ((255, 255, 255) : RGB)
    ∧ (∀ i j : ℕ, i ≤ j → (fun _ : ℕ => true) i = true → (fun _ : ℕ => true) j = true)
    ∧ (fun _ : ℕ => true) 0 = true
    ∧ (List.replicate LED_COUNT ((0, 0, 0) : RGB)).length = LED_COUNT
    ∧ ((breathe_effect "White" [(2 : ℤ), 70] 5 30 (fun _ => true) 3
          (List.replicate LED_COUNT ((0, 0, 0) : RGB))).framesRun ≤ 0
      ∧ (∀ a : ℤ, a ∈ [(2 : ℤ), 70] → inRange a = true →
          (breathe_effect "White" [(2 : ℤ), 70] 5 30 (fun _ => true) 3
            (List.replicate LED_COUNT ((0, 0, 0) : RGB))).buffer[a.toNat]?
            = some ((0, 0, 0) : RGB))) :=
  ⟨rfl, fun _ _ _ h => h, rfl, by decide,
   breathe_effect_cancellation_cleanup "White" ((255, 255, 255) : RGB) rfl
     [(2 : ℤ), 70] 5 30 3 (fun _ => true) (fun _ _ _ h => h) 0 rfl
     (List.replicate LED_COUNT ((0, 0, 0) : RGB)) (by decide)⟩

/-- C1: after `stop_all_breathing_effects` on three tracked Effects over
addresses [0,1], [2,3], [4,6], the tracked count is 0 and every address
of the stopped Effects reads black — but the claimed final full-buffer
clear never happens: `reset_leds([])` (main.py line 284) iterates an
empty list, so pixel 5, lit red by an earlier direct set and belonging
to no Effect, is still lit after stopAll returns, contradicting the
code's own comment that it ensures all LEDs are turned off. -/
theorem stop_all_skips_full_buffer_clear :
    (stop_all_breathing_effects
      ⟨(set_led_color "Red" [(5 : ℤ)] (List.replicate LED_COUNT ((0, 0, 0) : RGB))).buffer,
       [⟨1, "White", [0, 1], false⟩, ⟨2, "White", [2, 3], false⟩,
        ⟨3, "White", [4, 6], false⟩]⟩).active_threads.length = 0
    ∧ (stop_all_breathing_effects
      ⟨(set_led_color "Red" [(5 : ℤ)] (List.replicate LED_COUNT ((0, 0, 0) : RGB))).buffer,
       [⟨1, "White", [0, 1], false⟩, ⟨2, "White", [2, 3], false⟩,
        ⟨3, "White", [4, 6], false⟩]⟩).buffer[0]? = some ((0, 0, 0) : RGB)
    ∧ (stop_all_breathing_effects
      ⟨(set_led_color "Red" [(5 : ℤ)] (List.replicate LED_COUNT ((0, 0, 0) : RGB))).buffer,
       [⟨1, "White", [0, 1], false⟩, ⟨2, "White", [2, 3], false⟩,
        ⟨3, "White", [4, 6], false⟩]⟩).buffer[1]? = some ((0, 0, 0) : RGB)
    ∧ (stop_all_breathing_effects
      ⟨(set_led_color "Red" [(5 : ℤ)] (List.replicate LED_COUNT ((0, 0, 0) : RGB))).buffer,
       [⟨1, "White", [0, 1], false⟩, ⟨2, "White", [2, 3], false⟩,
        ⟨3, "White", [4, 6], false⟩]⟩).buffer[2]? = some ((0, 0, 0) : RGB)
    ∧ (stop_all_breathing_effects
      ⟨(set_led_color "Red" [(5 : ℤ)] (List.replicate LED_COUNT ((0, 0, 0) : RGB))).buffer,
       [⟨1, "White", [0, 1], false⟩, ⟨2, "White", [2, 3], false⟩,
        ⟨3, "White", [4, 6], false⟩]⟩).buffer[3]? = some ((0, 0, 0) : RGB)
    ∧ (stop_all_breathing_effects
      ⟨(set_led_color "Red" [(5 : ℤ)] (List.replicate LED_COUNT ((0, 0, 0) : RGB))).buffer,
       [⟨1, "White", [0, 1], false⟩, ⟨2, "White", [2, 3], false⟩,
        ⟨3, "White", [4, 6], false⟩]⟩).buffer[4]? = some ((0, 0, 0) : RGB)
    ∧ (stop_all_breathing_effects
      ⟨(set_led_color "Red" [(5 : ℤ)] (List.replicate LED_COUNT ((0, 0, 0) : RGB))).buffer,
       [⟨1, "White", [0, 1], false⟩, ⟨2, "White", [2, 3], false⟩,
        ⟨3, "White", [4, 6], false⟩]⟩).buffer[6]? = some ((0, 0, 0) : RGB)
    ∧ (stop_all_breathing_effects
      ⟨(set_led_color "Red" [(5 : ℤ)] (List.replicate LED_COUNT ((0, 0, 0) : RGB))).buffer,
       [⟨1, "White", [0, 1], false⟩, ⟨2, "White", [2, 3], false⟩,
        ⟨3, "White", [4, 6], false⟩]⟩).buffer[5]? = some ((255, 0, 0) : RGB) :=
  ⟨rfl, rfl, rfl, rfl, rfl, rfl, rfl, rfl⟩

/-- C2 counterexample: thread ids are `len(active_threads) + 1`, and
`stop_all_breathing_effects` clears the dictionary, so a start after a
stopAll hands out id 1 again — equal to an identity handed out earlier
in the same run, refuting "identities are never reused within a process
run". -/
theorem thread_id_reused_after_stop_all :
    (start_effect ⟨List.replicate LED_COUNT ((0, 0, 0) : RGB), []⟩ "White" [(0 : ℤ)]).2 = 1
    ∧ (start_effect
        (stop_all_breathing_effects
          (start_effect ⟨List.replicate LED_COUNT ((0, 0, 0) : RGB), []⟩ "White"
            [(0 : ℤ)]).1)
        "White" [(1 : ℤ)]).2 = 1 :=
  ⟨rfl, rfl⟩

/-- C2 (amended): `thread_id = len(active_threads) + 1`, so within any
span of a run that contains no stopAll the ids handed out by successive
starts are the consecutive values `n+1, n+2, …` (n the tracked count at
the span's beginning) and are pairwise distinct — never reusing an id
live in that span; after stopAll clears tracking the counter restarts,
so ids may repeat across stopAll boundaries. -/
theorem thread_ids_fresh_without_stop_all (s : SysState)
    (reqs : List (String × List ℤ)) :
    (runStarts s reqs).2 = List.range' (s.active_threads.length + 1) reqs.length
    ∧ (runStarts s reqs).2.Nodup := by
  have key : ∀ (reqs : List (String × List ℤ)) (s : SysState),
      (runStarts s reqs).2 = List.range' (s.active_threads.length + 1) reqs.length := by
    intro reqs
    induction reqs with
    | nil => intro s; rfl
    | cons r rest ih =>
      intro s
      obtain ⟨c, addrs⟩ := r
      simp only [runStarts]
      rw [ih]
      simp [start_effect, List.range'_succ]
  refine ⟨key reqs s, ?_⟩
  rw [key reqs s]
  exact List.nodup_range' _ _

/-- C9: for every token the resolver fails to match (the lookups yield
no addresses), `handle_input` starts no Effect and changes no state: the
tracked-thread table and the pixel buffer are exactly as before. -/
theorem unresolved_token_no_state_change (df_sku : List SkuRow)
    (df_order : List OrderRow) (token : String) (s : SysState)
    (hexit : ¬ str_toLower token = "exit")
    (hnone : resolve_addresses df_sku df_order token = []) :
    (handle_input df_sku df_order token s).state = s
    ∧ (handle_input df_sku df_order token s).started = [] := by
  have hex : (str_toLower token == "exit") = false := by
    simp only [beq_eq_false_iff_ne, ne_eq]
    exact hexit
  unfold handle_input
  unfold resolve_addresses at hnone
  rw [hex]
  by_cases hd : str_isdigit token = true
  · rw [hd] at hnone ⊢
    have hnone2 : (match find_skus_by_sales_order df_order token with
        | none => []
        | some skus => collectAddresses df_sku skus) = [] := hnone
    cases hfind : find_skus_by_sales_order df_order token with
    | none => exact ⟨rfl, rfl⟩
    | some skus =>
      rw [hfind] at hnone2
      have hnone3 : collectAddresses df_sku skus = [] := hnone2
      have he : (collectAddresses df_sku skus).isEmpty = true :=
        List.isEmpty_iff.mpr hnone3
      dsimp only
      rw [he]
      exact ⟨rfl, rfl⟩
  · have hd' : str_isdigit token = false := by
      simpa using hd
    rw [hd'] at hnone ⊢
    have hnone2 : (match find_address_by_sku df_sku token with
        | none => []
        | some addrs => addrs) = [] := hnone
    cases hfind : find_address_by_sku df_sku token with
    | none => exact ⟨rfl, rfl⟩
    | some addrs =>
      rw [hfind] at hnone2
      have hnone3 : addrs = [] := hnone2
      exact absurd hnone3 (find_address_by_sku_ne_nil df_sku token addrs hfind)

/-- Witness for C9: the unknown token "zzz" against one-row tables. -/
theorem unresolved_token_no_state_change_witness :
    ¬ (str_toLower "zzz" = "exit")
    ∧ resolve_addresses [⟨"ED-10", 4⟩] [⟨"1001", "ED-10"⟩] "zzz" = []
    ∧ ((handle_input [⟨"ED-10", 4⟩] [⟨"1001", "ED-10"⟩] "zzz"
          ⟨List.replicate LED_COUNT ((0, 0, 0) : RGB), []⟩).state
        = ⟨List.replicate LED_COUNT ((0, 0, 0) : RGB), []⟩
      ∧ (handle_input [⟨"ED-10", 4⟩] [⟨"1001", "ED-10"⟩] "zzz"
          ⟨List.replicate LED_COUNT ((0, 0, 0) : RGB), []⟩).started = []) :=
  ⟨by decide, by decide,
   unresolved_token_no_state_change [⟨"ED-10", 4⟩] [⟨"1001", "ED-10"⟩] "zzz"
     ⟨List.replicate LED_COUNT ((0, 0, 0) : RGB), []⟩ (by decide) (by decide)⟩

/-- C10: for every non-exit token, `handle_input` takes the sales-order
branch exactly when the token is non-empty and consists solely of digit
characters, and the SKU branch otherwise; a digit-only token is never
looked up as a SKU. -/
theorem digit_token_classified_as_order (df_sku : List SkuRow)
    (df_order : List OrderRow) (token : String) (s : SysState)
    (hexit : ¬ str_toLower token = "exit") :
    ((handle_input df_sku df_order token s).action = InputAction.orderLookup
      ↔ (token ≠ "" ∧ ∀ ch ∈ token.toList, ch.isDigit = true))
    ∧ ((handle_input df_sku df_order token s).action = InputAction.skuLookup
      ↔ ¬ (token ≠ "" ∧ ∀ ch ∈ token.toList, ch.isDigit = true)) := by
  have hex : (str_toLower token == "exit") = false := by
    simp only [beq_eq_false_iff_ne, ne_eq]
    exact hexit
  have hempty : token.isEmpty = false ↔ ¬ token = "" := by
    rw [← String.isEmpty_iff]
    simp
  have hbridge : str_isdigit token = true
      ↔ (token ≠ "" ∧ ∀ ch ∈ token.toList, ch.isDigit = true) := by
    unfold str_isdigit
    rw [Bool.and_eq_true, Bool.not_eq_true', List.all_eq_true]
    exact and_congr hempty Iff.rfl
  have haction : (handle_input df_sku df_order token s).action
      = if str_isdigit token then InputAction.orderLookup else InputAction.skuLookup := by
    unfold handle_input
    rw [hex]
    by_cases hd : str_isdigit token = true
    · rw [hd]
      cases find_skus_by_sales_order df_order token with
      | none => rfl
      | some skus =>
        by_cases he : (collectAddresses df_sku skus).isEmpty = true
        · dsimp only
          rw [he]
          rfl
        · have he' : (collectAddresses df_sku skus).isEmpty = false := by
            simpa using he
          dsimp only
          rw [he']
          rfl
    · have hd' : str_isdigit token = false := by
        simpa using hd
      rw [hd']
      cases find_address_by_sku df_sku token with
      | none => rfl
      | some addrs => rfl
  rw [haction]
  by_cases hd : str_isdigit token = true
  · have hcond := hbridge.mp hd
    rw [hd]
    refine ⟨⟨fun _ => hcond, fun _ => rfl⟩, ⟨fun h => ?_, fun h => absurd hcond h⟩⟩
    exact absurd h (by simp)
  · have hd' : str_isdigit token = false := by
      simpa using hd
    have hcond : ¬ (token ≠ "" ∧ ∀ ch ∈ token.toList, ch.isDigit = true) :=
      fun hc => hd (hbridge.mpr hc)
    rw [hd']
    refine ⟨⟨fun h => ?_, fun h => absurd h hcond⟩, ⟨fun _ => hcond, fun _ => rfl⟩⟩
    exact absurd h (by simp)

/-- Witness for C10: the digit token "1001". -/
theorem digit_token_classified_as_order_witness :
    ¬ (str_toLower "1001" = "exit")
    ∧ (((handle_input [⟨"ED-10", 4⟩] [⟨"1001", "ED-10"⟩] "1001"
          ⟨List.replicate LED_COUNT ((0, 0, 0) : RGB), []⟩).action
          = InputAction.orderLookup
        ↔ ("1001" ≠ "" ∧ ∀ ch ∈ "1001".toList, ch.isDigit = true))
      ∧ ((handle_input [⟨"ED-10", 4⟩] [⟨"1001", "ED-10"⟩] "1001"
          ⟨List.replicate LED_COUNT ((0, 0, 0) : RGB), []⟩).action
          = InputAction.skuLookup
        ↔ ¬ ("1001" ≠ "" ∧ ∀ ch ∈ "1001".toList, ch.isDigit = true))) :=
  ⟨by decide,
   digit_token_classified_as_order [⟨"ED-10", 4⟩] [⟨"1001", "ED-10"⟩] "1001"
     ⟨List.replicate LED_COUNT ((0, 0, 0) : RGB), []⟩ (by decide)⟩

end WS2812B
